import Mathlib

/-!
Shallow embedding of the kbsearch-mcp-server tool adapters.

Sources embedded:
  - src/tools/cicd_query.py   (_add_summary_stats, _format_as_readable_list,
                               query_cicd_prepare, query_cicd_execute)
  - src/tools/cicd_db_query.py (query_cicd_data)
  - src/tools/rag_search.py    (search_knowledge_base, submit_feedback)

Modelling conventions:
  - JSON values are `JVal`; JSON objects (Python dicts) are association lists
    `List (String × JVal)` with first-match lookup.  Numeric JSON values are
    embedded as integers; no claim in scope distinguishes floats from ints,
    and Python renders one-decimal rounded rates through the separate
    `pyRoundPct` model below.
  - A Python function body that can raise is `Except PyErr α`; `Except.error`
    models an exception escaping the adapter uncaught (only
    `requests.exceptions.*` are caught by the adapters).
  - The HTTP transport outcome of `requests.post` + `raise_for_status` +
    `resp.json()` is `HttpOutcome`: `ok` carries a parsed JSON body,
    `badJson` models a 2xx response whose body fails to parse
    (`requests.exceptions.JSONDecodeError`, a `RequestException`, carrying
    `str(e)`), `httpError` carries the status code, the optionally parsed
    body and the raw text, and `timeout` / `connError` / `otherError` model
    `Timeout`, `ConnectionError` and other `RequestException`s (carrying
    `str(e)` where a handler interpolates it).
  - Environment-derived constants are embedded at their documented defaults
    (`USER_ID = "unknown"`, `RAG_TIMEOUT = 30`).
-/

inductive JVal where
  | s (v : String)
  | n (v : Int)
  | b (v : Bool)
  | null
  | arr (xs : List JVal)
  | obj (fields : List (String × JVal))

abbrev JDict := List (String × JVal)

abbrev Row := JDict

/-- First-match lookup in an association list: Python `d.get(k)` yielding
`None` when absent (`none` here). -/
def dlookup (d : JDict) (k : String) : Option JVal :=
  match d with
  | [] => none
  | (k2, v) :: rest => if k2 = k then some v else dlookup rest k

/-- Python `d.get(k, default)`. -/
def dgetD (d : JDict) (k : String) (dflt : JVal) : JVal :=
  (dlookup d k).getD dflt

/-- Python `v == "lit"` where `v` is `d.get(k)`: true exactly when the value
is present and is that string. -/
def jStrEq (v : Option JVal) (lit : String) : Bool :=
  match v with
  | some (.s t) => t = lit
  | _ => false

/-- Python truthiness of a JSON value. -/
def pyTruthy (v : JVal) : Bool :=
  match v with
  | .s t => t ≠ ""
  | .n i => i ≠ 0
  | .b bv => bv
  | .null => false
  | .arr xs => !xs.isEmpty
  | .obj fs => !fs.isEmpty

/-- Python truthiness of `d.get(k)` (absent key → `None` → falsy). -/
def pyTruthyOpt (v : Option JVal) : Bool :=
  match v with
  | some w => pyTruthy w
  | none => false

mutual

/-- Python `repr` of a JSON value (used by `str(dict)`); string escaping
inside reprs is not modelled (no claim exercises it). -/
def pyRepr : JVal → String
  | .s v => "\x27" ++ v ++ "\x27"
  | .n v => toString v
  | .b true => "True"
  | .b false => "False"
  | .null => "None"
  | .arr xs => "[" ++ pyReprList xs ++ "]"
  | .obj fs => "\x7b" ++ pyReprFields fs ++ "\x7d"

def pyReprList : List JVal → String
  | [] => ""
  | [x] => pyRepr x
  | x :: rest => pyRepr x ++ ", " ++ pyReprList rest

def pyReprFields : List (String × JVal) → String
  | [] => ""
  | [(k, v)] => "\x27" ++ k ++ "\x27: " ++ pyRepr v
  | (k, v) :: rest => "\x27" ++ k ++ "\x27: " ++ pyRepr v ++ ", " ++ pyReprFields rest

end

/-- Python `str` / f-string interpolation of a JSON value. -/
def pyStr (v : JVal) : String :=
  match v with
  | .s t => t
  | .n i => toString i
  | .b true => "True"
  | .b false => "False"
  | .null => "None"
  | .arr xs => pyRepr (.arr xs)
  | .obj fs => pyRepr (.obj fs)

/-- Python string slice `s[:16]` (first 16 code points). -/
def strTake16 (s : String) : String :=
  String.mk (s.data.take 16)

/-- Round `t / den` (with `den > 0`) to the nearest integer, ties to even:
the decimal model of Python `round`. -/
def roundHalfEvenDiv (t den : Int) : Int :=
  let q := Int.ediv t den
  let r := Int.emod t den
  if 2 * r < den then q
  else if den < 2 * r then q + 1
  else if Int.emod q 2 = 0 then q else q + 1

/-- Render an integer number of tenths as Python renders the corresponding
one-decimal float, e.g. `500 → "50.0"`. -/
def renderTenths (x : Int) : String :=
  if x < 0 then
    "-" ++ toString ((-x).toNat / 10) ++ "." ++ toString ((-x).toNat % 10)
  else
    toString (x.toNat / 10) ++ "." ++ toString (x.toNat % 10)

/-- Python `f"{round((num / den * 100) if den > 0 else 0, 1)}%"`: the rate
string built by `_add_summary_stats`.  When `den = 0` the guarded value is
the int `0` and Python renders `"0%"`. -/
def pyRoundPct (num den : Int) : String :=
  if 0 < den then renderTenths (roundHalfEvenDiv (num * 1000) den) ++ "%"
  else "0%"

/-- Python `r.get(k, 0)` used as an int summand: `some 0` when absent,
`some v` for an integer value, `none` modelling the `TypeError` Python
raises when a present non-integer value is added. -/
def getCount (r : Row) (k : String) : Option Int :=
  match dlookup r k with
  | none => some 0
  | some (.n v) => some v
  | some _ => none

/-- Python `sum(r.get(k, 0) for r in rows)`. -/
def sumCounts (rows : List Row) (k : String) : Option Int :=
  match rows with
  | [] => some 0
  | r :: rest => do
      let a ← getCount r k
      let b ← sumCounts rest k
      pure (a + b)

/-- Python `sum(r.get('tests_passed', 0) + r.get('tests_failed', 0) for r in rows)`. -/
def sumPassFail (rows : List Row) : Option Int :=
  match rows with
  | [] => some 0
  | r :: rest => do
      let a ← getCount r "tests_passed"
      let b ← getCount r "tests_failed"
      let c ← sumPassFail rest
      pure (a + b + c)

/-- Embedding of `_add_summary_stats` (src/tools/cicd_query.py lines 25-64).
`none` models the `TypeError` raised when a test-count field holds a
non-integer value. -/
def _add_summary_stats (results : List Row) : Option JDict :=
  match results with
  | [] => some []
  | first_row :: _ =>
    if (dlookup first_row "deploy_result").isSome then
      let total : Int := results.length
      let successes : Int := results.countP (fun r => jStrEq (dlookup r "deploy_result") "SUCCESS")
      let failures : Int := results.countP (fun r => jStrEq (dlookup r "deploy_result") "FAILURE")
      some [("type", .s "deployment"),
            ("total", .n total),
            ("successes", .n successes),
            ("failures", .n failures),
            ("success_rate", .s (pyRoundPct successes total))]
    else if (dlookup first_row "tests_passed").isSome || (dlookup first_row "test_type").isSome then
      do
        let total_tests ← sumPassFail results
        let total_passed ← sumCounts results "tests_passed"
        let total_failed ← sumCounts results "tests_failed"
        pure [("type", .s "test"),
              ("test_runs", .n results.length),
              ("total_tests", .n total_tests),
              ("passed", .n total_passed),
              ("failed", .n total_failed),
              ("pass_rate", .s (pyRoundPct total_passed total_tests))]
    else
      some [("type", .s "generic"), ("row_count", .n results.length)]

/-- Python `str(r.get('date', 'N/A'))[:16] if r.get('date') else 'N/A'`. -/
def dateStr (r : Row) : String :=
  if pyTruthyOpt (dlookup r "date") then strTake16 (pyStr (dgetD r "date" (.s "N/A")))
  else "N/A"

/-- One deployment entry of `_format_as_readable_list` (1-based index `i`). -/
def deploymentEntry (i : Nat) (r : Row) : List String :=
  [toString i ++ ". **" ++ pyStr (dgetD r "app_name" (.s "N/A")) ++ "** " ++ pyStr (dgetD r "app_version" (.s "N/A")),
   "   - Environment: " ++ pyStr (dgetD r "deploy_env" (.s "N/A")),
   "   - Result: " ++ (if jStrEq (dlookup r "deploy_result") "SUCCESS" then "✓" else "✗") ++ " " ++ pyStr (dgetD r "deploy_result" (.s "N/A")),
   "   - Date: " ++ dateStr r,
   "   - Deployed by: " ++ pyStr (dgetD r "deployed_by" (.s "N/A")),
   ""]

/-- One test entry of `_format_as_readable_list`; `none` models the
`TypeError` of `r.get('tests_failed', 0) > 0` on a non-integer value. -/
def testEntry (i : Nat) (r : Row) : Option (List String) :=
  do
    let failedCount ← getCount r "tests_failed"
    let duration := dgetD r "test_duration_seconds" (.n 0)
    let durationStr := if pyTruthy duration then pyStr duration ++ "s" else "N/A"
    pure [toString i ++ ". **" ++ pyStr (dgetD r "app_name" (.s "N/A")) ++ "** " ++ pyStr (dgetD r "app_version" (.s "N/A")),
          "   - Test Type: " ++ pyStr (dgetD r "test_type" (.s "N/A")),
          "   - Results: " ++ (if 0 < failedCount then "✗" else "✓") ++ " " ++ pyStr (dgetD r "tests_passed" (.n 0)) ++ " passed, " ++ pyStr (dgetD r "tests_failed" (.n 0)) ++ " failed, " ++ pyStr (dgetD r "tests_skipped" (.n 0)) ++ " skipped",
          "   - Duration: " ++ durationStr,
          "   - Date: " ++ dateStr r,
          ""]

/-- One generic entry of `_format_as_readable_list`. -/
def genericEntry (i : Nat) (r : Row) : List String :=
  (toString i ++ ". Result:") :: r.map (fun p => "   - " ++ p.1 ++ ": " ++ pyStr p.2) ++ [""]

/-- Enumerate rows 1-based and concatenate the per-row line lists. -/
def enumEntries (f : Nat → Row → List String) (start : Nat) (rows : List Row) : List String :=
  match rows with
  | [] => []
  | r :: rest => f start r ++ enumEntries f (start + 1) rest

/-- Enumerate rows 1-based through an entry builder that can fail. -/
def enumEntriesM (f : Nat → Row → Option (List String)) (start : Nat) (rows : List Row) : Option (List String) :=
  match rows with
  | [] => some []
  | r :: rest => do
      let e ← f start r
      let es ← enumEntriesM f (start + 1) rest
      pure (e ++ es)

/-- Embedding of `_format_as_readable_list` (src/tools/cicd_query.py lines
67-116).  `none` models an uncaught exception: a `KeyError` on a summary
field the chosen branch indexes, or a `TypeError` in a test entry. -/
def _format_as_readable_list (results : List Row) (summary : JDict) : Option String :=
  if results.isEmpty then some "No results found."
  else
    let result_type := dgetD summary "type" (.s "generic")
    if jStrEq (some result_type) "deployment" then
      do
        let total ← dlookup summary "total"
        let successes ← dlookup summary "successes"
        let failures ← dlookup summary "failures"
        let rate ← dlookup summary "success_rate"
        let header := "**Found " ++ pyStr total ++ " deployments: " ++ pyStr successes ++ " successful, " ++ pyStr failures ++ " failed (" ++ pyStr rate ++ " success rate)**\n"
        pure (String.intercalate "\n" (header :: enumEntries deploymentEntry 1 results))
    else if jStrEq (some result_type) "test" then
      do
        let testRuns ← dlookup summary "test_runs"
        let totalTests ← dlookup summary "total_tests"
        let passed ← dlookup summary "passed"
        let failed ← dlookup summary "failed"
        let rate ← dlookup summary "pass_rate"
        let header := "**Found " ++ pyStr testRuns ++ " test runs: " ++ pyStr totalTests ++ " total tests, " ++ pyStr passed ++ " passed, " ++ pyStr failed ++ " failed (" ++ pyStr rate ++ " pass rate)**\n"
        let entries ← enumEntriesM testEntry 1 results
        pure (String.intercalate "\n" (header :: entries))
    else
      let header := "**Found " ++ pyStr (dgetD summary "row_count" (.n results.length)) ++ " results**\n"
      some (String.intercalate "\n" (header :: enumEntries genericEntry 1 results))

/-- A Python exception escaping an adapter uncaught. -/
inductive PyErr where
  | keyError (k : String)
  | typeError
  | attributeError

/-- Outcome of `requests.post` + `raise_for_status` + (where called)
`resp.json()`, as seen by the adapter body. -/
inductive HttpOutcome where
  | ok (body : JVal)
  | badJson (msg : String)
  | httpError (code : Nat) (body : Option JVal) (text : String)
  | timeout (msg : String)
  | connError
  | otherError (msg : String)

/-- Python `d[k]`: `KeyError` when absent. -/
def keyGet (d : JDict) (k : String) : Except PyErr JVal :=
  match dlookup d k with
  | some v => .ok v
  | none => .error (.keyError k)

/-- Treat a parsed JSON body as a dict; `.get` on a non-dict raises
`AttributeError`. -/
def asObj (v : JVal) : Except PyErr JDict :=
  match v with
  | .obj fs => .ok fs
  | _ => .error .attributeError

/-- Interpret the value of a `results` field as a list of row dicts, as the
summarisation/formatting code does; anything else raises a `TypeError`. -/
def decodeRowList : List JVal → Except PyErr (List Row)
  | [] => .ok []
  | .obj f :: rest =>
      match decodeRowList rest with
      | .ok rs => .ok (f :: rs)
      | .error e => .error e
  | _ :: _ => .error .typeError

def decodeRows (v : JVal) : Except PyErr (List Row) :=
  match v with
  | .arr xs => decodeRowList xs
  | _ => .error .typeError

/-- Re-encode rows as the JSON value placed in the `results` output field. -/
def encodeRows (rows : List Row) : JVal :=
  .arr (rows.map .obj)

def liftOpt (o : Option α) : Except PyErr α :=
  match o with
  | some a => .ok a
  | none => .error .typeError

/-- `USER_ID = os.getenv("USER_ID", "unknown")` at its documented default. -/
def USER_ID : String := "unknown"

/-- `RAG_TIMEOUT = int(os.getenv("RAG_TIMEOUT", "30"))` at its documented
default. -/
def RAG_TIMEOUT : Nat := 30

/-- JSON request body sent by `query_cicd_prepare` (src/tools/cicd_query.py
lines 165-172). -/
def prepareRequestBody (question user_id : String) : JDict :=
  [("query", .s question), ("user_id", .s user_id)]

/-- JSON request body sent by `query_cicd_execute` (src/tools/cicd_query.py
lines 312-321). -/
def executeRequestBody (sql cache_key : String) (confirm_cache : Bool) (user_id : String) : JDict :=
  [("sql", .s sql),
   ("cache_key", .s cache_key),
   ("confirm_cache", .b confirm_cache),
   ("user_id", .s user_id)]

/-- The long f-string message of the `needs_generation` branch of
`query_cicd_prepare` (src/tools/cicd_query.py lines 207-224). -/
def needsGenerationMessage (cache_key instruction : JVal) : String :=
  "❌ Query NOT complete - Action required!\n\n📋 REQUIRED NEXT STEPS:\n1. Generate SQL using the instruction below\n2. Call query_cicd_execute(sql=\"YOUR_SQL\", cache_key=\"" ++ pyStr cache_key ++ "\", confirm_cache=true)\n3. Return those results to the user\n\n⚠️ DO NOT show SQL to user without executing it first!\n\n📝 SQL Generation Instruction:\n" ++ pyStr instruction ++ "\n\n🔧 Example call:\nquery_cicd_execute(\n    sql=\"SELECT * FROM deployment_data WHERE deploy_env=\x27PROD\x27 ORDER BY date DESC LIMIT 3\",\n    cache_key=\"" ++ pyStr cache_key ++ "\",\n    confirm_cache=true\n)"

/-- Dispatch of `query_cicd_prepare` on a parsed JSON dict body
(src/tools/cicd_query.py lines 174-240). -/
def prepareOnData (data : JDict) : Except PyErr JDict :=
  let status := dlookup data "status"
  if jStrEq status "success" then
    do
      let results ← decodeRows (dgetD data "results" (.arr []))
      let summary ← liftOpt (_add_summary_stats results)
      let formatted_table ← liftOpt (_format_as_readable_list results summary)
      pure [("status", .s "success"),
            ("cached", .b true),
            ("results", encodeRows results),
            ("summary", .obj summary),
            ("formatted_results", .s formatted_table),
            ("sql", dgetD data "sql" .null),
            ("message", .s "Query results retrieved from cache. Display the \x27formatted_results\x27 to the user.")]
  else if jStrEq status "needs_generation" then
    let instruction := dgetD data "instruction" (.s "")
    let cache_key := dgetD data "cache_key" .null
    .ok [("status", .s "ACTION_REQUIRED"),
         ("action", .s "EXECUTE_SQL"),
         ("cached", .b false),
         ("cache_key", cache_key),
         ("instruction", instruction),
         ("error", .s "⚠️ INCOMPLETE - SQL not executed yet"),
         ("message", .s (needsGenerationMessage cache_key instruction))]
  else if jStrEq status "error" then
    .ok [("status", .s "error"),
         ("error", dgetD data "message" (.s "Unknown error")),
         ("warnings", dgetD data "warnings" (.arr [])),
         ("suggestions", dgetD data "suggestions" (.arr []))]
  else
    .ok [("status", .s "error"),
         ("error", .s ("Unexpected status: " ++ pyStr (dgetD data "status" .null)))]

/-- Embedding of `query_cicd_prepare` (src/tools/cicd_query.py lines
152-262) as a function of the transport outcome. -/
def query_cicd_prepare (o : HttpOutcome) : Except PyErr JDict :=
  match o with
  | .ok body => do
      let data ← asObj body
      prepareOnData data
  | .badJson msg =>
      .ok [("status", .s "error"),
           ("error", .s ("Error preparing CI/CD query: " ++ msg))]
  | .httpError code _ text =>
      .ok [("status", .s "error"),
           ("error", .s ("CI/CD database service returned error: " ++ toString code)),
           ("details", .s text)]
  | .timeout _ =>
      .ok [("status", .s "error"),
           ("error", .s "CI/CD database query preparation timed out. Please try again.")]
  | .connError =>
      .ok [("status", .s "error"),
           ("error", .s "Could not connect to CI/CD database service. Service may be down.")]
  | .otherError msg =>
      .ok [("status", .s "error"),
           ("error", .s ("Error preparing CI/CD query: " ++ msg))]

/-- Dispatch of `query_cicd_execute` on a parsed JSON dict body
(src/tools/cicd_query.py lines 323-355). -/
def executeOnData (sql : String) (data : JDict) : Except PyErr JDict :=
  let status := dlookup data "status"
  if jStrEq status "success" then
    do
      let results ← decodeRows (dgetD data "results" (.arr []))
      let summary ← liftOpt (_add_summary_stats results)
      let formatted_table ← liftOpt (_format_as_readable_list results summary)
      pure [("status", .s "success"),
            ("results", encodeRows results),
            ("summary", .obj summary),
            ("formatted_results", .s formatted_table),
            ("sql", dgetD data "sql" .null),
            ("cached", dgetD data "cached" (.b false)),
            ("message", .s ("Query executed successfully. " ++ (if pyTruthyOpt (dlookup data "cached") then "Cached for future use. " else "") ++ "Display the \x27formatted_results\x27 to the user."))]
  else if jStrEq status "error" then
    .ok [("status", .s "error"),
         ("error", dgetD data "message" (.s "SQL execution failed")),
         ("sql", .s sql),
         ("error_type", dgetD data "error_type" .null)]
  else
    .ok [("status", .s "error"),
         ("error", .s ("Unexpected status: " ++ pyStr (dgetD data "status" .null)))]

/-- Embedding of `query_cicd_execute` (src/tools/cicd_query.py lines
295-377) as a function of its arguments and the transport outcome. -/
def query_cicd_execute (sql : String) (_cache_key : String) (_confirm_cache : Bool) (o : HttpOutcome) : Except PyErr JDict :=
  match o with
  | .ok body => do
      let data ← asObj body
      executeOnData sql data
  | .badJson msg =>
      .ok [("status", .s "error"),
           ("error", .s ("Error executing SQL: " ++ msg))]
  | .httpError code _ text =>
      .ok [("status", .s "error"),
           ("error", .s ("CI/CD database service returned error: " ++ toString code)),
           ("details", .s text)]
  | .timeout _ =>
      .ok [("status", .s "error"),
           ("error", .s "SQL execution timed out. Query may be too complex.")]
  | .connError =>
      .ok [("status", .s "error"),
           ("error", .s "Could not connect to CI/CD database service. Service may be down.")]
  | .otherError msg =>
      .ok [("status", .s "error"),
           ("error", .s ("Error executing SQL: " ++ msg))]

/-- Embedding of `query_cicd_data` (src/tools/cicd_db_query.py lines
23-62). -/
def query_cicd_data (o : HttpOutcome) : Except PyErr JDict :=
  match o with
  | .ok body => do
      let data ← asObj body
      if !pyTruthy (dgetD data "allowed" (.b false)) then
        pure [("allowed_to_answer", .b false)]
      else do
        let rows ← keyGet data "rows"
        let sql ← keyGet data "sql"
        pure [("allowed_to_answer", .b true),
              ("rows", rows),
              ("sql", sql),
              ("sources", .arr [.s "ci_postgres"])]
  | .badJson msg =>
      .ok [("allowed_to_answer", .b false),
           ("error", .s ("Error querying CI/CD database: " ++ msg))]
  | .httpError code _ _ =>
      .ok [("allowed_to_answer", .b false),
           ("error", .s ("CI/CD database service returned an error: " ++ toString code))]
  | .timeout _ =>
      .ok [("allowed_to_answer", .b false),
           ("error", .s "CI/CD database query timed out. Please try again.")]
  | .connError =>
      .ok [("allowed_to_answer", .b false),
           ("error", .s "Could not connect to CI/CD database service. Service may be down.")]
  | .otherError msg =>
      .ok [("allowed_to_answer", .b false),
           ("error", .s ("Error querying CI/CD database: " ++ msg))]

/-- Python `f"{v:.3f}"`: defined on (integer-embedded) numbers; a
non-number raises. -/
def fmt3 (v : JVal) : Except PyErr String :=
  match v with
  | .n i => .ok (toString i ++ ".000")
  | _ => .error .typeError

/-- Python `f"{v:.0f}"`: defined on (integer-embedded) numbers; a
non-number raises. -/
def fmt0 (v : JVal) : Except PyErr String :=
  match v with
  | .n i => .ok (toString i)
  | _ => .error .typeError

/-- The chunk list as iterated by `search_knowledge_base`; a non-list
`chunks` value is modelled as a `TypeError`. -/
def chunksOf (data : JDict) : Except PyErr (List JVal) :=
  match dgetD data "chunks" (.arr []) with
  | .arr xs => .ok xs
  | _ => .error .typeError

/-- One element of the `chunks_text` list comprehension
(src/tools/rag_search.py lines 95-99): `chunk['citation']` etc. raise
`KeyError` when absent. -/
def chunkText (c : JVal) : Except PyErr String :=
  do
    let cd ← asObj c
    let cit ← keyGet cd "citation"
    let title ← keyGet cd "title"
    let content ← keyGet cd "content"
    pure (pyStr cit ++ " " ++ pyStr title ++ "\nContent:\n" ++ pyStr content)

/-- One element of the `sources_list` comprehension
(src/tools/rag_search.py lines 102-107). -/
def sourceLine (c : JVal) : Except PyErr String :=
  do
    let cd ← asObj c
    let cit ← keyGet cd "citation"
    let title ← keyGet cd "title"
    let urlPart := if pyTruthyOpt (dlookup cd "url") then " - " ++ pyStr (dgetD cd "url" .null) else ""
    let score ← keyGet cd "score"
    let scoreStr ← fmt3 score
    pure (pyStr cit ++ " " ++ pyStr title ++ urlPart ++ " (relevance: " ++ scoreStr ++ ")")

def mapExcept (f : α → Except PyErr β) : List α → Except PyErr (List β)
  | [] => .ok []
  | x :: rest => do
      let y ← f x
      let ys ← mapExcept f rest
      pure (y :: ys)

/-- The detail string extracted by the `HTTPError` handlers of
src/tools/rag_search.py: `e.response.json().get("detail", str(error_data))`
with a fallback to `e.response.text` when the body is not a JSON dict. -/
def httpErrorDetail (body : Option JVal) (text : String) : String :=
  match body with
  | some (.obj d) =>
      match dlookup d "detail" with
      | some v => pyStr v
      | none => pyStr (.obj d)
  | some _ => text
  | none => text

/-- Embedding of `search_knowledge_base` (src/tools/rag_search.py lines
53-145) as a function of the transport outcome; the request-side arguments
do not influence the returned string. -/
def search_knowledge_base (o : HttpOutcome) : Except PyErr String :=
  match o with
  | .ok body => do
      let data ← asObj body
      let chunks ← chunksOf data
      let chunkTexts ← mapExcept chunkText chunks
      let chunks_text := String.intercalate "\n\n" chunkTexts
      let sourceLines ← mapExcept sourceLine chunks
      let sources_list := String.intercalate "\n" sourceLines
      let metrics := dgetD data "metrics" (.obj [])
      let query_id := dgetD data "query_id" (.s "")
      if chunks.isEmpty then
        pure "No relevant information found in the knowledge base for this query."
      else do
        let metricsD ← asObj metrics
        let latStr ← fmt0 (dgetD metricsD "latency_ms" (.n 0))
        pure (String.intercalate "\n"
          ["# Retrieved Information",
           "",
           chunks_text,
           "",
           "---",
           "# SOURCES",
           sources_list,
           "",
           "Query ID: " ++ pyStr query_id ++ " (use this for feedback)",
           "Retrieved " ++ toString chunks.length ++ " chunks in " ++ latStr ++ "ms"])
  | .badJson msg =>
      .ok ("ERROR: Failed to search knowledge base: " ++ msg)
  | .httpError code body text =>
      .ok ("ERROR: RAG service returned error (" ++ toString code ++ "): " ++ httpErrorDetail body text)
  | .timeout _ =>
      .ok ("ERROR: Knowledge base search timed out after " ++ toString RAG_TIMEOUT ++ "s. The RAG service is taking too long. Try a simpler query or check if the service is running.")
  | .connError =>
      .ok "ERROR: Could not connect to RAG Testing Pipeline. Ensure the service is running with \x27docker-compose up -d\x27."
  | .otherError msg =>
      .ok ("ERROR: Failed to search knowledge base: " ++ msg)

/-- Embedding of `submit_feedback` (src/tools/rag_search.py lines 170-210).
The success path never parses the response body, so a 2xx response with an
unparseable body still confirms; `Timeout` has no dedicated handler here and
falls through to the generic `RequestException` handler. -/
def submit_feedback (query_id : String) (score : Int) (_comment : String) (o : HttpOutcome) : Except PyErr String :=
  match o with
  | .ok _ =>
      .ok ("✓ Feedback submitted successfully: " ++ toString score ++ "/10 for query " ++ query_id)
  | .badJson _ =>
      .ok ("✓ Feedback submitted successfully: " ++ toString score ++ "/10 for query " ++ query_id)
  | .httpError code body text =>
      .ok ("ERROR: Feedback submission failed (" ++ toString code ++ "): " ++ httpErrorDetail body text)
  | .timeout msg =>
      .ok ("ERROR: Failed to submit feedback: " ++ msg)
  | .connError =>
      .ok "ERROR: Could not connect to RAG Testing Pipeline to submit feedback."
  | .otherError msg =>
      .ok ("ERROR: Failed to submit feedback: " ++ msg)

/-- A value cannot compare equal to both `"SUCCESS"` and `"FAILURE"`. -/
lemma jStrEq_not_both (v : Option JVal)
    (h1 : jStrEq v "SUCCESS" = true) (h2 : jStrEq v "FAILURE" = true) : False := by
  cases v with
  | none => simp [jStrEq] at h1
  | some w =>
    cases w <;> simp [jStrEq] at h1 h2
    subst h1
    exact absurd h2 (by decide)

/-- Counting two mutually exclusive predicates never exceeds the length. -/
lemma countP_disjoint_le (l : List Row) :
    l.countP (fun r => jStrEq (dlookup r "deploy_result") "SUCCESS")
      + l.countP (fun r => jStrEq (dlookup r "deploy_result") "FAILURE") ≤ l.length := by
  induction l with
  | nil => simp
  | cons r rest ih =>
    rw [List.countP_cons, List.countP_cons]
    cases hs : jStrEq (dlookup r "deploy_result") "SUCCESS" with
    | true =>
      cases hf : jStrEq (dlookup r "deploy_result") "FAILURE" with
      | true => exact (jStrEq_not_both _ hs hf).elim
      | false => simp only [List.length_cons]; simp; omega
    | false =>
      cases hf : jStrEq (dlookup r "deploy_result") "FAILURE" with
      | true => simp only [List.length_cons]; simp; omega
      | false => simp only [List.length_cons]; simp; omega

/-- `query_cicd_prepare` on a `needs_generation` body, fully evaluated. -/
lemma prepareOnData_needs_generation (d : JDict)
    (hs : dlookup d "status" = some (.s "needs_generation")) :
    prepareOnData d =
      .ok [("status", .s "ACTION_REQUIRED"),
           ("action", .s "EXECUTE_SQL"),
           ("cached", .b false),
           ("cache_key", dgetD d "cache_key" .null),
           ("instruction", dgetD d "instruction" (.s "")),
           ("error", .s "⚠️ INCOMPLETE - SQL not executed yet"),
           ("message", .s (needsGenerationMessage (dgetD d "cache_key" .null) (dgetD d "instruction" (.s ""))))] := by
  simp [prepareOnData, hs, jStrEq]

/-- C1: for every backend prepare response whose status is
`needs_generation`, `query_cicd_prepare` returns a payload whose status is
the action-signalling `"ACTION_REQUIRED"` (in particular not `"success"`),
and that payload carries the backend-supplied `cache_key` value unchanged. -/
theorem prepare_needs_generation_signals_action (d : JDict) (k : JVal)
    (hs : dlookup d "status" = some (.s "needs_generation"))
    (hk : dlookup d "cache_key" = some k) :
    ∃ p, query_cicd_prepare (.ok (.obj d)) = .ok p ∧
      dlookup p "status" = some (.s "ACTION_REQUIRED") ∧
      dlookup p "status" ≠ some (.s "success") ∧
      dlookup p "cache_key" = some k := by
  refine ⟨[("status", .s "ACTION_REQUIRED"),
           ("action", .s "EXECUTE_SQL"),
           ("cached", .b false),
           ("cache_key", dgetD d "cache_key" .null),
           ("instruction", dgetD d "instruction" (.s "")),
           ("error", .s "⚠️ INCOMPLETE - SQL not executed yet"),
           ("message", .s (needsGenerationMessage (dgetD d "cache_key" .null) (dgetD d "instruction" (.s ""))))],
    ?_, ?_, ?_, ?_⟩
  · show (do
        let data ← asObj (.obj d)
        prepareOnData data : Except PyErr JDict) = _
    exact prepareOnData_needs_generation d hs
  · simp [dlookup]
  · simp [dlookup]
  · simp [dlookup, dgetD, hk]

theorem prepare_needs_generation_signals_action_witness :
    (dlookup [("status", JVal.s "needs_generation"), ("cache_key", JVal.s "k1"), ("instruction", JVal.s "i")] "status" = some (.s "needs_generation")) ∧
    ∃ p, query_cicd_prepare (.ok (.obj [("status", JVal.s "needs_generation"), ("cache_key", JVal.s "k1"), ("instruction", JVal.s "i")])) = .ok p ∧
      dlookup p "status" = some (.s "ACTION_REQUIRED") ∧
      dlookup p "status" ≠ some (.s "success") ∧
      dlookup p "cache_key" = some (JVal.s "k1") :=
  ⟨rfl, prepare_needs_generation_signals_action _ _ rfl rfl⟩

/-- C2: the cache key round-trips unmodified: `query_cicd_prepare` returns
the backend-issued `cache_key` value unchanged, and `query_cicd_execute`
places the exact `cache_key` string it is given, untransformed, into the
JSON request body sent to the execute endpoint. -/
theorem cache_key_round_trip_unmodified :
    (∀ (d : JDict) (k : JVal),
        dlookup d "status" = some (.s "needs_generation") →
        dlookup d "cache_key" = some k →
        ∃ p, query_cicd_prepare (.ok (.obj d)) = .ok p ∧ dlookup p "cache_key" = some k) ∧
    (∀ (sql cache_key : String) (confirm_cache : Bool) (user_id : String),
        dlookup (executeRequestBody sql cache_key confirm_cache user_id) "cache_key"
          = some (.s cache_key)) := by
  constructor
  · intro d k hs hk
    refine ⟨[("status", .s "ACTION_REQUIRED"),
             ("action", .s "EXECUTE_SQL"),
             ("cached", .b false),
             ("cache_key", dgetD d "cache_key" .null),
             ("instruction", dgetD d "instruction" (.s "")),
             ("error", .s "⚠️ INCOMPLETE - SQL not executed yet"),
             ("message", .s (needsGenerationMessage (dgetD d "cache_key" .null) (dgetD d "instruction" (.s ""))))],
      ?_, ?_⟩
    · show (do
          let data ← asObj (.obj d)
          prepareOnData data : Except PyErr JDict) = _
      exact prepareOnData_needs_generation d hs
    · simp [dlookup, dgetD, hk]
  · intro sql cache_key confirm_cache user_id
    simp [executeRequestBody, dlookup]

theorem cache_key_round_trip_unmodified_witness :
    (dlookup [("status", JVal.s "needs_generation"), ("cache_key", JVal.s "k1")] "status" = some (.s "needs_generation")) ∧
    (∃ p, query_cicd_prepare (.ok (.obj [("status", JVal.s "needs_generation"), ("cache_key", JVal.s "k1")])) = .ok p ∧
          dlookup p "cache_key" = some (JVal.s "k1")) ∧
    dlookup (executeRequestBody "SELECT 1" "k1" true "unknown") "cache_key" = some (JVal.s "k1") :=
  ⟨rfl, cache_key_round_trip_unmodified.1 _ _ rfl rfl,
   cache_key_round_trip_unmodified.2 "SELECT 1" "k1" true "unknown"⟩

def c3Rows : List Row :=
  [[("app_name", .s "frontend"), ("deploy_result", .s "SUCCESS")],
   [("app_name", .s "frontend"), ("deploy_result", .s "FAILURE")]]

def c3Summary : JDict :=
  [("type", .s "deployment"), ("total", .n 2), ("successes", .n 1),
   ("failures", .n 1), ("success_rate", .s "50.0%")]

/-- C3: for every non-empty deployment-shaped result list the summary holds
total = row count, the SUCCESS and FAILURE bucket counts, and
success_rate = round(100 × successes / total, 1) rendered as a percentage
string; rows with any other `deploy_result` count toward total but neither
bucket, so successes + failures ≤ total.  In particular a one-SUCCESS /
one-FAILURE pair yields summary
`{type: deployment, total: 2, successes: 1, failures: 1, success_rate: "50.0%"}`
and a formatted block headed by
`"**Found 2 deployments: 1 successful, 1 failed (50.0% success rate)**"`. -/
theorem deployment_summary_success_rate :
    (∀ (first_row : Row) (rest : List Row),
        (dlookup first_row "deploy_result").isSome = true →
        _add_summary_stats (first_row :: rest) =
          some [("type", .s "deployment"),
                ("total", .n (first_row :: rest).length),
                ("successes", .n ((first_row :: rest).countP (fun r => jStrEq (dlookup r "deploy_result") "SUCCESS"))),
                ("failures", .n ((first_row :: rest).countP (fun r => jStrEq (dlookup r "deploy_result") "FAILURE"))),
                ("success_rate", .s (pyRoundPct ((first_row :: rest).countP (fun r => jStrEq (dlookup r "deploy_result") "SUCCESS")) (first_row :: rest).length))] ∧
        (first_row :: rest).countP (fun r => jStrEq (dlookup r "deploy_result") "SUCCESS")
          + (first_row :: rest).countP (fun r => jStrEq (dlookup r "deploy_result") "FAILURE")
          ≤ (first_row :: rest).length) ∧
    (_add_summary_stats c3Rows = some c3Summary ∧
     _format_as_readable_list c3Rows c3Summary =
       some ("**Found 2 deployments: 1 successful, 1 failed (50.0% success rate)**\n"
         ++ "\n1. **frontend** N/A\n   - Environment: N/A\n   - Result: ✓ SUCCESS\n   - Date: N/A\n   - Deployed by: N/A\n"
         ++ "\n2. **frontend** N/A\n   - Environment: N/A\n   - Result: ✗ FAILURE\n   - Date: N/A\n   - Deployed by: N/A\n")) := by
  refine ⟨fun first_row rest h => ⟨?_, countP_disjoint_le (first_row :: rest)⟩, rfl, ?_⟩
  · simp [_add_summary_stats, h]
  · set_option maxRecDepth 40000 in rfl

theorem deployment_summary_success_rate_witness :
    ((dlookup [("deploy_result", JVal.s "SUCCESS")] "deploy_result").isSome = true) ∧
    (_add_summary_stats [[("deploy_result", JVal.s "SUCCESS")]] =
       some [("type", .s "deployment"), ("total", .n 1), ("successes", .n 1),
             ("failures", .n 0), ("success_rate", .s (pyRoundPct 1 1))] ∧
     1 + 0 ≤ 1) :=
  ⟨rfl, (deployment_summary_success_rate.1 [("deploy_result", JVal.s "SUCCESS")] [] rfl).1,
    (deployment_summary_success_rate.1 [("deploy_result", JVal.s "SUCCESS")] [] rfl).2⟩

/-- The per-row passed+failed sum equals the sum of the two column sums. -/
lemma sumPassFail_eq_add (rows : List Row) (P F : Int)
    (hP : sumCounts rows "tests_passed" = some P)
    (hF : sumCounts rows "tests_failed" = some F) :
    sumPassFail rows = some (P + F) := by
  induction rows generalizing P F with
  | nil =>
    simp [sumCounts] at hP hF
    simp [sumPassFail, ← hP, ← hF]
  | cons r rest ih =>
    cases ha : getCount r "tests_passed" with
    | none => simp [sumCounts, ha] at hP
    | some a =>
      cases hb : getCount r "tests_failed" with
      | none => simp [sumCounts, hb] at hF
      | some b =>
        cases hp : sumCounts rest "tests_passed" with
        | none => simp [sumCounts, ha, hp] at hP
        | some p =>
          cases hf : sumCounts rest "tests_failed" with
          | none => simp [sumCounts, hb, hf] at hF
          | some f =>
            simp [sumCounts, ha, hp] at hP
            simp [sumCounts, hb, hf] at hF
            simp [sumPassFail, ha, hb, ih p f hp hf]
            omega

/-- C4 counterexample: at a single test row with `tests_skipped = 5`, the
summary built by `_add_summary_stats` carries no summed skipped count: no
field of the summary holds the value 5, so the claim that the summary
contains the summed skipped count fails. -/
theorem test_summary_no_skipped_counterexample :
    _add_summary_stats [[("tests_passed", JVal.n 1), ("tests_failed", JVal.n 1), ("tests_skipped", JVal.n 5)]] =
      some [("type", .s "test"), ("test_runs", .n 1), ("total_tests", .n 2),
            ("passed", .n 1), ("failed", .n 1), ("pass_rate", .s "50.0%")] ∧
    dlookup [("type", JVal.s "test"), ("test_runs", JVal.n 1), ("total_tests", JVal.n 2),
             ("passed", JVal.n 1), ("failed", JVal.n 1), ("pass_rate", JVal.s "50.0%")] "skipped" = none ∧
    ∀ kv ∈ [("type", JVal.s "test"), ("test_runs", JVal.n 1), ("total_tests", JVal.n 2),
            ("passed", JVal.n 1), ("failed", JVal.n 1), ("pass_rate", JVal.s "50.0%")],
      kv.2 ≠ JVal.n 5 := by
  refine ⟨rfl, rfl, ?_⟩
  intro kv hkv
  fin_cases hkv <;> simp

/-- C4 (amended): for every result list classified as test-shaped whose
passed/failed fields are integers where present, the summary contains the
summed passed and failed counts, total_tests = passed + failed, and
pass_rate = round(100 × passed / (passed + failed), 1) as a percentage
string with pass_rate the int 0 (rendered "0%") when passed + failed = 0 —
but it contains no summed skipped count: its fields are exactly
type, test_runs, total_tests, passed, failed and pass_rate. -/
theorem test_summary_pass_rate (first_row : Row) (rest : List Row) (P F : Int)
    (hd : dlookup first_row "deploy_result" = none)
    (ht : (dlookup first_row "tests_passed").isSome = true ∨ (dlookup first_row "test_type").isSome = true)
    (hP : sumCounts (first_row :: rest) "tests_passed" = some P)
    (hF : sumCounts (first_row :: rest) "tests_failed" = some F) :
    _add_summary_stats (first_row :: rest) =
      some [("type", .s "test"),
            ("test_runs", .n (first_row :: rest).length),
            ("total_tests", .n (P + F)),
            ("passed", .n P),
            ("failed", .n F),
            ("pass_rate", .s (pyRoundPct P (P + F)))] ∧
    pyRoundPct P (0 : Int) = "0%" := by
  constructor
  · have hpf := sumPassFail_eq_add _ _ _ hP hF
    rcases ht with ht | ht
    · simp [_add_summary_stats, hd, ht, hpf, hP, hF]
    · simp [_add_summary_stats, hd, ht, hpf, hP, hF]
  · simp [pyRoundPct]

theorem test_summary_pass_rate_witness :
    (dlookup [("tests_passed", JVal.n 3), ("tests_failed", JVal.n 1)] "deploy_result" = none) ∧
    ((dlookup [("tests_passed", JVal.n 3), ("tests_failed", JVal.n 1)] "tests_passed").isSome = true ∨
     (dlookup [("tests_passed", JVal.n 3), ("tests_failed", JVal.n 1)] "test_type").isSome = true) ∧
    (sumCounts [[("tests_passed", JVal.n 3), ("tests_failed", JVal.n 1)]] "tests_passed" = some 3) ∧
    (sumCounts [[("tests_passed", JVal.n 3), ("tests_failed", JVal.n 1)]] "tests_failed" = some 1) ∧
    (_add_summary_stats [[("tests_passed", JVal.n 3), ("tests_failed", JVal.n 1)]] =
      some [("type", .s "test"), ("test_runs", .n 1), ("total_tests", .n (3 + 1)),
            ("passed", .n 3), ("failed", .n 1), ("pass_rate", .s (pyRoundPct 3 (3 + 1)))] ∧
     pyRoundPct 3 (0 : Int) = "0%") :=
  ⟨rfl, Or.inl rfl, rfl, rfl,
   test_summary_pass_rate [("tests_passed", JVal.n 3), ("tests_failed", JVal.n 1)] [] 3 1
     rfl (Or.inl rfl) rfl rfl⟩

@[simp] lemma except_ok_bind (a : α) (f : α → Except PyErr β) :
    (Except.ok a >>= f : Except PyErr β) = f a := rfl

@[simp] lemma except_pure_eq (a : α) : (pure a : Except PyErr α) = Except.ok a := rfl

@[simp] lemma decodeRowList_map_obj (R : List Row) :
    decodeRowList (R.map .obj) = .ok R := by
  induction R with
  | nil => rfl
  | cons r rest ih => simp [decodeRowList, ih]

@[simp] lemma decodeRows_encodeRows (R : List Row) :
    decodeRows (encodeRows R) = .ok R := by
  simp [decodeRows, encodeRows]

/-- The cache-hit success branch of `query_cicd_prepare`, fully evaluated. -/
lemma prepareOnData_success (d : JDict) (R : List Row) (S : JDict) (f : String)
    (hs : dlookup d "status" = some (.s "success"))
    (hr : dlookup d "results" = some (encodeRows R))
    (hsum : _add_summary_stats R = some S)
    (hfmt : _format_as_readable_list R S = some f) :
    prepareOnData d =
      .ok [("status", .s "success"),
           ("cached", .b true),
           ("results", encodeRows R),
           ("summary", .obj S),
           ("formatted_results", .s f),
           ("sql", dgetD d "sql" .null),
           ("message", .s "Query results retrieved from cache. Display the \x27formatted_results\x27 to the user.")] := by
  simp [prepareOnData, hs, jStrEq, dgetD, hr, hsum, hfmt, liftOpt]

/-- The success branch of `query_cicd_execute`, fully evaluated. -/
lemma executeOnData_success (sql : String) (d : JDict) (R : List Row) (S : JDict) (f : String)
    (hs : dlookup d "status" = some (.s "success"))
    (hr : dlookup d "results" = some (encodeRows R))
    (hsum : _add_summary_stats R = some S)
    (hfmt : _format_as_readable_list R S = some f) :
    executeOnData sql d =
      .ok [("status", .s "success"),
           ("results", encodeRows R),
           ("summary", .obj S),
           ("formatted_results", .s f),
           ("sql", dgetD d "sql" .null),
           ("cached", dgetD d "cached" (.b false)),
           ("message", .s ("Query executed successfully. " ++ (if pyTruthyOpt (dlookup d "cached") then "Cached for future use. " else "") ++ "Display the \x27formatted_results\x27 to the user."))] := by
  simp [executeOnData, hs, jStrEq, dgetD, hr, hsum, hfmt, liftOpt]

/-- C5: a `query_cicd_execute` success over a result list is summarized and
formatted identically to a `query_cicd_prepare` cache-hit success over the
same list — both payloads carry the same summary and formatted_results
values (computed by the same `_add_summary_stats` and
`_format_as_readable_list`), the same status, and the same set of fields. -/
theorem success_payload_phase_independent (d1 d2 : JDict) (R : List Row) (S : JDict) (f : String)
    (h1 : dlookup d1 "status" = some (.s "success"))
    (h2 : dlookup d2 "status" = some (.s "success"))
    (hr1 : dlookup d1 "results" = some (encodeRows R))
    (hr2 : dlookup d2 "results" = some (encodeRows R))
    (hsum : _add_summary_stats R = some S)
    (hfmt : _format_as_readable_list R S = some f) :
    ∀ (sql ck : String) (conf : Bool),
    ∃ p1 p2,
      query_cicd_prepare (.ok (.obj d1)) = .ok p1 ∧
      query_cicd_execute sql ck conf (.ok (.obj d2)) = .ok p2 ∧
      dlookup p1 "summary" = some (.obj S) ∧
      dlookup p2 "summary" = some (.obj S) ∧
      dlookup p1 "formatted_results" = some (.s f) ∧
      dlookup p2 "formatted_results" = some (.s f) ∧
      dlookup p1 "status" = dlookup p2 "status" ∧
      (p1.map Prod.fst).Perm (p2.map Prod.fst) := by
  intro sql ck conf
  refine ⟨[("status", .s "success"),
           ("cached", .b true),
           ("results", encodeRows R),
           ("summary", .obj S),
           ("formatted_results", .s f),
           ("sql", dgetD d1 "sql" .null),
           ("message", .s "Query results retrieved from cache. Display the \x27formatted_results\x27 to the user.")],
          [("status", .s "success"),
           ("results", encodeRows R),
           ("summary", .obj S),
           ("formatted_results", .s f),
           ("sql", dgetD d2 "sql" .null),
           ("cached", dgetD d2 "cached" (.b false)),
           ("message", .s ("Query executed successfully. " ++ (if pyTruthyOpt (dlookup d2 "cached") then "Cached for future use. " else "") ++ "Display the \x27formatted_results\x27 to the user."))],
    ?_, ?_, ?_, ?_, ?_, ?_, ?_, ?_⟩
  · show (do
        let data ← asObj (.obj d1)
        prepareOnData data : Except PyErr JDict) = _
    exact prepareOnData_success d1 R S f h1 hr1 hsum hfmt
  · show (do
        let data ← asObj (.obj d2)
        executeOnData sql data : Except PyErr JDict) = _
    exact executeOnData_success sql d2 R S f h2 hr2 hsum hfmt
  · simp [dlookup]
  · simp [dlookup]
  · simp [dlookup]
  · simp [dlookup]
  · simp [dlookup]
  · show List.Perm ["status", "cached", "results", "summary", "formatted_results", "sql", "message"]
      ["status", "results", "summary", "formatted_results", "sql", "cached", "message"]
    decide

theorem success_payload_phase_independent_witness :
    (dlookup [("status", JVal.s "success"), ("results", JVal.arr [])] "status" = some (.s "success")) ∧
    (_add_summary_stats ([] : List Row) = some []) ∧
    (_format_as_readable_list ([] : List Row) [] = some "No results found.") ∧
    ∃ p1 p2,
      query_cicd_prepare (.ok (.obj [("status", JVal.s "success"), ("results", JVal.arr [])])) = .ok p1 ∧
      query_cicd_execute "SELECT 1" "k1" true (.ok (.obj [("status", JVal.s "success"), ("results", JVal.arr [])])) = .ok p2 ∧
      dlookup p1 "summary" = some (.obj []) ∧
      dlookup p2 "summary" = some (.obj []) ∧
      dlookup p1 "formatted_results" = some (.s "No results found.") ∧
      dlookup p2 "formatted_results" = some (.s "No results found.") ∧
      dlookup p1 "status" = dlookup p2 "status" ∧
      (p1.map Prod.fst).Perm (p2.map Prod.fst) :=
  ⟨rfl, rfl, rfl,
   success_payload_phase_independent
     [("status", JVal.s "success"), ("results", JVal.arr [])]
     [("status", JVal.s "success"), ("results", JVal.arr [])]
     [] [] "No results found." rfl rfl rfl rfl rfl rfl "SELECT 1" "k1" true⟩

/-- C6: whenever the retrieval backend returns zero chunks (an empty or
absent `chunks` list), `search_knowledge_base` returns exactly the fixed
no-relevant-information string — not a formatted block with a Retrieved
Information header, sources list or Query ID line. -/
theorem zero_chunks_fixed_message (d : JDict)
    (h : dlookup d "chunks" = none ∨ dlookup d "chunks" = some (.arr [])) :
    search_knowledge_base (.ok (.obj d)) =
      .ok "No relevant information found in the knowledge base for this query." := by
  rcases h with h | h <;>
    simp [search_knowledge_base, asObj, chunksOf, dgetD, h, mapExcept]

theorem zero_chunks_fixed_message_witness :
    (dlookup [("chunks", JVal.arr []), ("query_id", JVal.s "q1")] "chunks" = none ∨
     dlookup [("chunks", JVal.arr []), ("query_id", JVal.s "q1")] "chunks" = some (.arr [])) ∧
    search_knowledge_base (.ok (.obj [("chunks", JVal.arr []), ("query_id", JVal.s "q1")])) =
      .ok "No relevant information found in the knowledge base for this query." :=
  ⟨Or.inr rfl, zero_chunks_fixed_message _ (Or.inr rfl)⟩

/-- C7: a timeout on prepare yields a status "error" payload whose message
mentions the timeout, and that message is distinct from (and not contained
in) the connection-failure message, so neither failure is misreported as
the other. -/
theorem prepare_timeout_not_connection_error (msg : String) :
    ∃ p q, query_cicd_prepare (.timeout msg) = .ok p ∧
      dlookup p "status" = some (.s "error") ∧
      dlookup p "error" = some (.s "CI/CD database query preparation timed out. Please try again.") ∧
      ("timed out".toList <:+: "CI/CD database query preparation timed out. Please try again.".toList) ∧
      query_cicd_prepare .connError = .ok q ∧
      dlookup q "status" = some (.s "error") ∧
      dlookup q "error" = some (.s "Could not connect to CI/CD database service. Service may be down.") ∧
      ¬ ("timed out".toList <:+: "Could not connect to CI/CD database service. Service may be down.".toList) ∧
      ("CI/CD database query preparation timed out. Please try again." : String)
        ≠ "Could not connect to CI/CD database service. Service may be down." := by
  refine ⟨_, _, rfl, rfl, rfl, by decide, rfl, rfl, rfl, by decide, by decide⟩

/-- C8: a backend status outside the recognized set is surfaced by both
`query_cicd_prepare` (recognized: success, needs_generation, error) and
`query_cicd_execute` (recognized: success, error) as a status "error"
payload whose error message includes the literal unexpected status value. -/
theorem unexpected_status_surfaced :
    (∀ (d : JDict) (s : String),
        dlookup d "status" = some (.s s) →
        s ∉ (["success", "needs_generation", "error"] : List String) →
        query_cicd_prepare (.ok (.obj d)) =
          .ok [("status", .s "error"), ("error", .s ("Unexpected status: " ++ s))]) ∧
    (∀ (d : JDict) (s sql ck : String) (conf : Bool),
        dlookup d "status" = some (.s s) →
        s ∉ (["success", "error"] : List String) →
        query_cicd_execute sql ck conf (.ok (.obj d)) =
          .ok [("status", .s "error"), ("error", .s ("Unexpected status: " ++ s))]) := by
  constructor
  · intro d s h hmem
    have h1 : ¬ s = "success" := fun e => hmem (by simp [e])
    have h2 : ¬ s = "needs_generation" := fun e => hmem (by simp [e])
    have h3 : ¬ s = "error" := fun e => hmem (by simp [e])
    show (do
        let data ← asObj (.obj d)
        prepareOnData data : Except PyErr JDict) = _
    simp [asObj, prepareOnData, jStrEq, h, dgetD, pyStr, h1, h2, h3]
  · intro d s sql ck conf h hmem
    have h1 : ¬ s = "success" := fun e => hmem (by simp [e])
    have h3 : ¬ s = "error" := fun e => hmem (by simp [e])
    show (do
        let data ← asObj (.obj d)
        executeOnData sql data : Except PyErr JDict) = _
    simp [asObj, executeOnData, jStrEq, h, dgetD, pyStr, h1, h3]

theorem unexpected_status_surfaced_witness :
    (dlookup [("status", JVal.s "weird")] "status" = some (.s "weird")) ∧
    ("weird" : String) ∉ (["success", "needs_generation", "error"] : List String) ∧
    query_cicd_prepare (.ok (.obj [("status", JVal.s "weird")])) =
      .ok [("status", .s "error"), ("error", .s ("Unexpected status: " ++ "weird"))] ∧
    (dlookup [("status", JVal.s "needs_generation")] "status" = some (.s "needs_generation")) ∧
    ("needs_generation" : String) ∉ (["success", "error"] : List String) ∧
    query_cicd_execute "SELECT 1" "k1" true (.ok (.obj [("status", JVal.s "needs_generation")])) =
      .ok [("status", .s "error"), ("error", .s ("Unexpected status: " ++ "needs_generation"))] :=
  ⟨rfl, by decide,
   unexpected_status_surfaced.1 [("status", JVal.s "weird")] "weird" rfl (by decide),
   rfl, by decide,
   unexpected_status_surfaced.2 [("status", JVal.s "needs_generation")] "needs_generation"
     "SELECT 1" "k1" true rfl (by decide)⟩

/-- The returned string begins with the given marker. -/
abbrev strStarts (p t : String) : Prop := p.data <+: t.data

lemma strStarts_append (p L m : String) (h : strStarts p L) :
    strStarts p (L ++ m) := by
  unfold strStarts
  rw [String.data_append]
  exact h.trans (List.prefix_append L.data m.data)

def HttpOutcome.isFailure : HttpOutcome → Bool
  | .ok _ => false
  | _ => true

/-- C9 counterexample: a well-formed 2xx JSON response `{"allowed": true}`
with no `rows` key makes `query_cicd_data` raise an uncaught `KeyError`
instead of returning a structured error payload. -/
theorem query_cicd_data_missing_rows_raises :
    query_cicd_data (.ok (.obj [("allowed", JVal.b true)])) = .error (.keyError "rows") := rfl

/-- C9 (amended): for every transport failure (timeout, connection error,
HTTP error, unparseable 2xx body, other request exception) each adapter
returns a structured error payload or an "ERROR"-prefixed message and does
not raise (`submit_feedback`, which never parses the response body, returns
its success confirmation on an unparseable 2xx body) — but a well-formed
JSON body missing an expected key (such as `rows` in `query_cicd_data`)
escapes as an uncaught exception, as the counterexample shows. -/
theorem transport_failures_recovered (o : HttpOutcome) (hf : o.isFailure = true) :
    (∃ p, query_cicd_data o = .ok p ∧ dlookup p "allowed_to_answer" = some (.b false)) ∧
    (∃ p, query_cicd_prepare o = .ok p ∧ dlookup p "status" = some (.s "error")) ∧
    (∀ (sql ck : String) (conf : Bool),
      ∃ p, query_cicd_execute sql ck conf o = .ok p ∧ dlookup p "status" = some (.s "error")) ∧
    (∃ t, search_knowledge_base o = .ok t ∧ strStarts "ERROR" t) ∧
    (∀ (qid : String) (score : Int) (c : String),
      ∃ t, submit_feedback qid score c o = .ok t ∧
        ((∃ m, o = .badJson m) ∨ strStarts "ERROR" t)) := by
  cases o with
  | ok body => simp [HttpOutcome.isFailure] at hf
  | badJson msg =>
    refine ⟨⟨_, rfl, rfl⟩, ⟨_, rfl, rfl⟩, fun sql ck conf => ⟨_, rfl, rfl⟩, ⟨_, rfl, ?_⟩, ?_⟩
    · exact strStarts_append "ERROR" "ERROR: Failed to search knowledge base: " msg (by decide)
    · exact fun qid score c => ⟨_, rfl, Or.inl ⟨msg, rfl⟩⟩
  | httpError code body text =>
    refine ⟨⟨_, rfl, rfl⟩, ⟨_, rfl, rfl⟩, fun sql ck conf => ⟨_, rfl, rfl⟩, ⟨_, rfl, ?_⟩, ?_⟩
    · show strStarts "ERROR" ("ERROR: RAG service returned error (" ++ toString code ++ "): " ++ httpErrorDetail body text)
      exact strStarts_append _ _ _ (strStarts_append _ _ _ (strStarts_append _ _ _ (by decide)))
    · intro qid score c
      refine ⟨_, rfl, Or.inr ?_⟩
      show strStarts "ERROR" ("ERROR: Feedback submission failed (" ++ toString code ++ "): " ++ httpErrorDetail body text)
      exact strStarts_append _ _ _ (strStarts_append _ _ _ (strStarts_append _ _ _ (by decide)))
  | timeout msg =>
    refine ⟨⟨_, rfl, rfl⟩, ⟨_, rfl, rfl⟩, fun sql ck conf => ⟨_, rfl, rfl⟩, ⟨_, rfl, ?_⟩, ?_⟩
    · show strStarts "ERROR" ("ERROR: Knowledge base search timed out after " ++ toString RAG_TIMEOUT ++ "s. The RAG service is taking too long. Try a simpler query or check if the service is running.")
      exact strStarts_append _ _ _ (strStarts_append _ _ _ (by decide))
    · intro qid score c
      refine ⟨_, rfl, Or.inr ?_⟩
      exact strStarts_append "ERROR" "ERROR: Failed to submit feedback: " msg (by decide)
  | connError =>
    exact ⟨⟨_, rfl, rfl⟩, ⟨_, rfl, rfl⟩, fun sql ck conf => ⟨_, rfl, rfl⟩, ⟨_, rfl, by decide⟩,
      fun qid score c => ⟨_, rfl, Or.inr (by decide)⟩⟩
  | otherError msg =>
    refine ⟨⟨_, rfl, rfl⟩, ⟨_, rfl, rfl⟩, fun sql ck conf => ⟨_, rfl, rfl⟩, ⟨_, rfl, ?_⟩, ?_⟩
    · exact strStarts_append "ERROR" "ERROR: Failed to search knowledge base: " msg (by decide)
    · intro qid score c
      refine ⟨_, rfl, Or.inr ?_⟩
      exact strStarts_append "ERROR" "ERROR: Failed to submit feedback: " msg (by decide)

theorem transport_failures_recovered_witness :
    ((HttpOutcome.timeout "took too long").isFailure = true) ∧
    ((∃ p, query_cicd_data (.timeout "took too long") = .ok p ∧ dlookup p "allowed_to_answer" = some (.b false)) ∧
     (∃ p, query_cicd_prepare (.timeout "took too long") = .ok p ∧ dlookup p "status" = some (.s "error")) ∧
     (∀ (sql ck : String) (conf : Bool),
       ∃ p, query_cicd_execute sql ck conf (.timeout "took too long") = .ok p ∧ dlookup p "status" = some (.s "error")) ∧
     (∃ t, search_knowledge_base (.timeout "took too long") = .ok t ∧ strStarts "ERROR" t) ∧
     (∀ (qid : String) (score : Int) (c : String),
       ∃ t, submit_feedback qid score c (.timeout "took too long") = .ok t ∧
         ((∃ m, (HttpOutcome.timeout "took too long") = .badJson m) ∨ strStarts "ERROR" t))) :=
  ⟨rfl, transport_failures_recovered (.timeout "took too long") rfl⟩

/-- C10: `_add_summary_stats` classifies a non-empty result list solely by
the first row's keys — `deploy_result` yields the deployment shape with
priority over the test keys, otherwise `tests_passed` or `test_type` yields
the test shape, otherwise the generic shape — for any later rows; the empty
list yields an empty summary and `_format_as_readable_list` then returns
the fixed "No results found." string for any summary. -/
theorem classification_by_first_row :
    (∀ (first_row : Row) (rest : List Row),
        (dlookup first_row "deploy_result").isSome = true →
        ∃ S, _add_summary_stats (first_row :: rest) = some S ∧
             dlookup S "type" = some (.s "deployment")) ∧
    (∀ (first_row : Row) (rest : List Row) (P F : Int),
        dlookup first_row "deploy_result" = none →
        ((dlookup first_row "tests_passed").isSome = true ∨ (dlookup first_row "test_type").isSome = true) →
        sumCounts (first_row :: rest) "tests_passed" = some P →
        sumCounts (first_row :: rest) "tests_failed" = some F →
        ∃ S, _add_summary_stats (first_row :: rest) = some S ∧
             dlookup S "type" = some (.s "test")) ∧
    (∀ (first_row : Row) (rest : List Row),
        dlookup first_row "deploy_result" = none →
        dlookup first_row "tests_passed" = none →
        dlookup first_row "test_type" = none →
        _add_summary_stats (first_row :: rest) =
          some [("type", .s "generic"), ("row_count", .n (first_row :: rest).length)]) ∧
    (_add_summary_stats ([] : List Row) = some []) ∧
    (∀ summary : JDict, _format_as_readable_list [] summary = some "No results found.") := by
  refine ⟨?_, ?_, ?_, rfl, fun _ => rfl⟩
  · intro first_row rest h
    refine ⟨[("type", .s "deployment"),
             ("total", .n (first_row :: rest).length),
             ("successes", .n ((first_row :: rest).countP (fun r => jStrEq (dlookup r "deploy_result") "SUCCESS"))),
             ("failures", .n ((first_row :: rest).countP (fun r => jStrEq (dlookup r "deploy_result") "FAILURE"))),
             ("success_rate", .s (pyRoundPct ((first_row :: rest).countP (fun r => jStrEq (dlookup r "deploy_result") "SUCCESS")) (first_row :: rest).length))], ?_, ?_⟩
    · simp [_add_summary_stats, h]
    · simp [dlookup]
  · intro first_row rest P F hd ht hP hF
    have hpf := sumPassFail_eq_add _ _ _ hP hF
    refine ⟨[("type", .s "test"),
             ("test_runs", .n (first_row :: rest).length),
             ("total_tests", .n (P + F)),
             ("passed", .n P),
             ("failed", .n F),
             ("pass_rate", .s (pyRoundPct P (P + F)))], ?_, ?_⟩
    · rcases ht with ht | ht
      · simp [_add_summary_stats, hd, ht, hpf, hP, hF]
      · simp [_add_summary_stats, hd, ht, hpf, hP, hF]
    · simp [dlookup]
  · intro first_row rest hd hp ht
    simp [_add_summary_stats, hd, hp, ht]

theorem classification_by_first_row_witness :
    ((dlookup [("deploy_result", JVal.s "SUCCESS"), ("tests_passed", JVal.n 7)] "deploy_result").isSome = true) ∧
    (∃ S, _add_summary_stats [[("deploy_result", JVal.s "SUCCESS"), ("tests_passed", JVal.n 7)],
                              [("unrelated", JVal.n 1)]] = some S ∧
          dlookup S "type" = some (.s "deployment")) ∧
    (∃ S, _add_summary_stats [[("test_type", JVal.s "unit")], [("deploy_result", JVal.s "SUCCESS")]] = some S ∧
          dlookup S "type" = some (.s "test")) ∧
    (_add_summary_stats [[("other", JVal.n 3)], [("deploy_result", JVal.s "SUCCESS")]] =
       some [("type", .s "generic"), ("row_count", .n 2)]) ∧
    (_add_summary_stats ([] : List Row) = some []) ∧
    (_format_as_readable_list [] [("type", JVal.s "deployment")] = some "No results found.") :=
  ⟨rfl,
   classification_by_first_row.1 [("deploy_result", JVal.s "SUCCESS"), ("tests_passed", JVal.n 7)]
     [[("unrelated", JVal.n 1)]] rfl,
   classification_by_first_row.2.1 [("test_type", JVal.s "unit")] [[("deploy_result", JVal.s "SUCCESS")]]
     0 0 rfl (Or.inr rfl) rfl rfl,
   classification_by_first_row.2.2.1 [("other", JVal.n 3)] [[("deploy_result", JVal.s "SUCCESS")]]
     rfl rfl rfl,
   classification_by_first_row.2.2.2.1,
   classification_by_first_row.2.2.2.2 [("type", JVal.s "deployment")]⟩
